import Mathlib

/-!
Formal model of the ntxcore ExchangeService incremental sync engine.

The JavaScript sources under ExchangeService/src are embedded as pure Lean
functions.  Timestamps (Date.now values) are natural numbers counting
milliseconds since the epoch; decimal amounts obtained through parseFloat are
modelled as rationals; fallible network calls are modelled by an explicit
FetchResult argument describing the environment response of the one HTTP
request a cycle would issue; a sync cycle is a pure function from its mode,
the stored watermark, the current clock and the network responses to the
list of backend submissions it performs, the watermark write it issues and
the number of exchange API calls it makes.
-/

/-- Milliseconds in one calendar day. -/
def msPerDay : Nat := 24 * 60 * 60 * 1000

/-- Day index of a millisecond timestamp.  This models the derivation of the
calendar date string (moment(t).format with a date-only pattern, fixed
timezone) as a value that is equal for two timestamps exactly when they fall
on the same calendar day. -/
def dayOfMs (t : Nat) : Nat := t / msPerDay

/-- ASCII uppercase of one character; models the effect of the JavaScript
toUpperCase call on the ASCII asset symbols the service handles. -/
def charToUpper (c : Char) : Char :=
  if 97 ≤ c.toNat ∧ c.toNat ≤ 122 then Char.ofNat (c.toNat - 32) else c

/-- ASCII lowercase of one character. -/
def charToLower (c : Char) : Char :=
  if 65 ≤ c.toNat ∧ c.toNat ≤ 90 then Char.ofNat (c.toNat + 32) else c

/-- ASCII model of String.prototype.toUpperCase. -/
def strToUpper (s : String) : String := ⟨s.data.map charToUpper⟩

/-- ASCII model of String.prototype.toLowerCase. -/
def strToLower (s : String) : String := ⟨s.data.map charToLower⟩

/-- Model of String.prototype.endsWith. -/
def strEndsWith (s p : String) : Bool := p.data.isSuffixOf s.data

/-!
StateService (ExchangeService/src/services/stateService.js).  The persisted
state maps an exchange identifier to an optional lastSyncTimestamp; here one
exchange slot is modelled as an Option Nat (none when the key is absent).
The JavaScript truthiness test on the stored number is rendered as a
comparison with zero.
-/

/-- StateService.getLastSyncTimestamp: return the stored watermark when it is
present and truthy, otherwise ten minutes before now (the default is not
persisted by this read). -/
def getLastSyncTimestamp (stored : Option Nat) (now : Nat) : Nat :=
  match stored with
  | some v => if v ≠ 0 then v else now - 10 * 60 * 1000
  | none => now - 10 * 60 * 1000

/-- StateService.updateLastSyncTimestamp: write the timestamp only when no
truthy value is stored or the new timestamp is strictly greater. -/
def updateLastSyncTimestamp (stored : Option Nat) (timestamp : Nat) : Option Nat :=
  match stored with
  | none => some timestamp
  | some v => if v = 0 ∨ v < timestamp then some timestamp else some v

/-- The numeric value held by one watermark slot (zero when absent). -/
def watermarkValue (stored : Option Nat) : Nat := stored.getD 0

/-!
CachingService (ExchangeService/src/services/cachingService.js).  The daily
dedup cache is a set of string keys.  Note for the record: no exchange module
in the repository imports this service; the sync workers below submit without
consulting it.
-/

/-- CachingService generateKey: the dedup key of one entry; the XT exchange
additionally includes the entry type. -/
def generateKey (exchangeName : String) (date uid ty : String) : String :=
  if strToLower exchangeName = "xt" then
    exchangeName ++ "-" ++ date ++ "-" ++ uid ++ "-" ++ ty
  else
    exchangeName ++ "-" ++ date ++ "-" ++ uid

/-- CachingService.has on the set of processed keys. -/
def cacheHas (processedEntries : List String) (key : String) : Bool :=
  processedEntries.contains key

/-- CachingService.add on the set of processed keys. -/
def cacheAdd (processedEntries : List String) (key : String) : List String :=
  key :: processedEntries

/-!
The daily reset schedule of the caching service checks the wall clock on a
one second interval and clears the cache when hour, minute and second are all
zero.  Clock readings are local-time milliseconds, so midnight boundaries sit
at multiples of msPerDay.
-/

/-- Hour component of a local-time millisecond reading (moment hour). -/
def jsHour (t : Nat) : Nat := t / 3600000 % 24

/-- Minute component of a local-time millisecond reading (moment minute). -/
def jsMinute (t : Nat) : Nat := t / 60000 % 60

/-- Second component of a local-time millisecond reading (moment second). -/
def jsSecond (t : Nat) : Nat := t / 1000 % 60

/-- The condition under which one tick of the scheduleDailyReset interval
clears the cache: hour, minute and second of the reading are all zero. -/
def resetCheckFires (t : Nat) : Bool :=
  jsHour t == 0 && jsMinute t == 0 && jsSecond t == 0

/-!
Backend submission client (ExchangeService/src/services/backendApiService.js).
-/

/-- The normalized record handed to sendTradeData by a worker. -/
structure TradeData where
  exchangeUid : String
  exchangeId : Nat
  tradeVolumeUsdt : Rat
  feeUsdt : Rat
  tradeDate : Nat
deriving DecidableEq, Repr

/-- The JSON body of the backend POST built by sendTradeData. -/
structure Payload where
  exchange_uid : String
  exchange_id : Nat
  trade_volume_usdt : Rat
  fee_usdt : Rat
  trade_date : Nat
deriving DecidableEq, Repr

/-- The payload sendTradeData builds from a record (uid stringified, amounts
passed through parseFloat, date passed through). -/
def mkPayload (d : TradeData) : Payload :=
  { exchange_uid := d.exchangeUid, exchange_id := d.exchangeId,
    trade_volume_usdt := d.tradeVolumeUsdt, fee_usdt := d.feeUsdt,
    trade_date := d.tradeDate }

/-- backendApiService.sendTradeData: in test mode it only logs and returns
(no outbound POST, rendered as none); otherwise it performs the POST of the
built payload.  Submission errors are caught and logged inside the function,
so it never propagates a failure to the caller. -/
def sendTradeData (testMode : Bool) (d : TradeData) : Option Payload :=
  if testMode then none else some (mkPayload d)

/-- Outcome of one outbound HTTP request: a transport error (the client threw)
or a parsed response value. -/
inductive FetchResult (α : Type) where
  | transportError : FetchResult α
  | ok : α → FetchResult α
deriving DecidableEq, Repr

/-- Observable outcome of one worker cycle: how many exchange API calls it
made, the backend posts it performed in order, and the watermark write it
issued (none when updateLastSyncTimestamp was not called). -/
structure CycleResult where
  apiCalls : Nat
  posts : List Payload
  watermarkWrite : Option Nat
deriving DecidableEq, Repr

/-!
Bitget worker (ExchangeService/src/exchanges/bitget/index.js).
-/

namespace Bitget

/-- One raw item of the Bitget commission list (fee and dealAmount already
through parseFloat, date through parseInt). -/
structure Item where
  uid : String
  date : Nat
  dealAmount : Rat
  fee : Rat
deriving DecidableEq, Repr

/-- Parsed Bitget API response envelope. -/
structure Response where
  code : String
  commissionList : List Item
deriving DecidableEq, Repr

/-- The sort step: commissionList.sort comparing parseInt(date) ascending
(a stable comparison sort). -/
def sortItems (l : List Item) : List Item :=
  l.insertionSort (fun a b => a.date ≤ b.date)

/-- The items the submission loop reaches sendTradeData with, in order: the
sorted list restricted to items with fee strictly positive. -/
def submittedItems (r : Response) : List Item :=
  (sortItems r.commissionList).filter (fun it => 0 < it.fee)

/-- The record built for one surviving Bitget item (EXCHANGE_ID is 1). -/
def toTradeData (it : Item) : TradeData :=
  { exchangeUid := it.uid, exchangeId := 1, tradeVolumeUsdt := it.dealAmount,
    feeUsdt := it.fee, tradeDate := dayOfMs it.date }

/-- One Bitget sync cycle.  In test mode the start of the window is forced to
two days before now, otherwise it is read from the state service; a start at
or beyond now ends the cycle before any API call; a transport error is caught
without reaching the watermark update; a response is processed when its code
is the success code, and in normal mode the watermark is then advanced to now
whether or not the response was successful. -/
def fetchAndProcessCommissions (testMode : Bool) (stored : Option Nat) (now : Nat)
    (fetch : FetchResult Response) : CycleResult :=
  let startTime := if testMode then now - 2 * msPerDay else getLastSyncTimestamp stored now
  if now ≤ startTime then { apiCalls := 0, posts := [], watermarkWrite := none }
  else
    match fetch with
    | .transportError => { apiCalls := 1, posts := [], watermarkWrite := none }
    | .ok r =>
      { apiCalls := 1,
        posts :=
          if r.code = "00000" then
            (submittedItems r).filterMap (fun it => sendTradeData testMode (toTradeData it))
          else [],
        watermarkWrite := if testMode then none else some now }

end Bitget

/-!
XT worker (ExchangeService/src/exchanges/xt/index.js).
-/

namespace Xt

/-- calculateOriginalFee of the XT worker: zero when the rebate rate is zero
or missing (the JavaScript falsy guard), otherwise commission divided by the
rate. -/
def calculateOriginalFee (commission : Rat) (rebateRate : Option Rat) : Rat :=
  match rebateRate with
  | none => 0
  | some r => if r = 0 then 0 else commission / r

/-- Division that records the zero-denominator case instead of performing it. -/
def checkedDiv (a b : Rat) : Option Rat :=
  if b = 0 then none else some (a / b)

/-- calculateOriginalFee with every division routed through checkedDiv, used
to state that the guard keeps the divisor away from zero. -/
def calculateOriginalFeeChecked (commission : Rat) (rebateRate : Option Rat) : Option Rat :=
  match rebateRate with
  | none => some 0
  | some r => if r = 0 then some 0 else checkedDiv commission r

/-- One raw item of the XT rebate response (numeric fields through
parseFloat with a zero default for absent values). -/
structure Item where
  date : Nat
  uid : String
  ty : Nat
  totalTradeUsdtAmount : Rat
  commissionAmount : Rat
  spotRebateRate : Rat
  futuresRebateRate : Rat
deriving DecidableEq, Repr

/-- Parsed XT API response envelope. -/
structure Response where
  rc : Int
  mc : String
  items : List Item
deriving DecidableEq, Repr

/-- The entry the worker builds from one raw item. -/
structure Entry where
  rawTimestamp : Nat
  date : Nat
  uid : String
  ty : Nat
  typeName : String
  dealAmount : Rat
  fee : Rat
deriving DecidableEq, Repr

/-- The per-item parse of the XT worker: the rebate rate is picked from the
spot or futures field by the item type (zero otherwise) and the fee is
reconstructed through calculateOriginalFee. -/
def parseItem (typeName : String) (it : Item) : Entry :=
  let rebateRate : Rat :=
    if it.ty = 1 then it.spotRebateRate
    else if it.ty = 2 then it.futuresRebateRate
    else 0
  { rawTimestamp := it.date, date := dayOfMs it.date, uid := it.uid, ty := it.ty,
    typeName := typeName, dealAmount := it.totalTradeUsdtAmount,
    fee := calculateOriginalFee it.commissionAmount (some rebateRate) }

/-- The success test on one XT response: rc is zero and mc is SUCCESS. -/
def batchOk (r : Response) : Bool :=
  r.rc == 0 && r.mc == "SUCCESS"

/-- The entries the submission loop reaches sendTradeData with, in order:
the successful batches (spot then futures) merged and sorted ascending by
raw timestamp; a failed batch contributes nothing (only a log line).  There
is no fee filter in this worker. -/
def submittedEntries (spot fut : Response) : List Entry :=
  let batch1 := if batchOk spot then spot.items.map (parseItem "Spot") else []
  let batch2 := if batchOk fut then fut.items.map (parseItem "Futures") else []
  (batch1 ++ batch2).insertionSort (fun a b => a.rawTimestamp ≤ b.rawTimestamp)

/-- The record built for one XT entry (EXCHANGE_ID is 5). -/
def toTradeData (e : Entry) : TradeData :=
  { exchangeUid := e.uid, exchangeId := 5, tradeVolumeUsdt := e.dealAmount,
    feeUsdt := e.fee, tradeDate := e.date }

/-- One XT sync cycle.  In test mode the window start is forced to seven days
before now; the worker issues one request per type (spot then futures); a
transport error on either request aborts before the submission loop and the
watermark update; otherwise every parsed entry is submitted and, in normal
mode, the watermark is advanced to now even when a batch reported failure. -/
def fetchAndProcessCommissions (testMode : Bool) (stored : Option Nat) (now : Nat)
    (spotFetch futFetch : FetchResult Response) : CycleResult :=
  let startTime := if testMode then now - 7 * msPerDay else getLastSyncTimestamp stored now
  if now ≤ startTime then { apiCalls := 0, posts := [], watermarkWrite := none }
  else
    match spotFetch with
    | .transportError => { apiCalls := 1, posts := [], watermarkWrite := none }
    | .ok r1 =>
      match futFetch with
      | .transportError => { apiCalls := 2, posts := [], watermarkWrite := none }
      | .ok r2 =>
        { apiCalls := 2,
          posts := (submittedEntries r1 r2).filterMap
            (fun e => sendTradeData testMode (toTradeData e)),
          watermarkWrite := if testMode then none else some now }

end Xt

/-!
Gate worker (ExchangeService/src/exchanges/gate/index.js).  Gate timestamps
from the API are unix seconds; the stored watermark stays in milliseconds.
-/

namespace Gate

/-- One ticker row of the spot tickers snapshot. -/
structure Ticker where
  currency_pair : String
  last : Rat
deriving DecidableEq, Repr

/-- Seconds in one calendar day. -/
def secPerDay : Nat := 24 * 60 * 60

/-- Object-style insert: overwrite the value of an existing key, append a new
key at the end. -/
def upsert (cache : List (String × Rat)) (k : String) (v : Rat) : List (String × Rat) :=
  if cache.any (fun p => p.1 == k) then
    cache.map (fun p => if p.1 == k then (k, v) else p)
  else cache ++ [(k, v)]

/-- The new cache built from a ticker snapshot: only pairs whose name ends in
the USDT suffix are kept, keyed by pair name. -/
def buildTickerCache (tickers : List Ticker) : List (String × Rat) :=
  tickers.foldl
    (fun c t => if strEndsWith t.currency_pair "_USDT" then upsert c t.currency_pair t.last
                else c) []

/-- fetchAndCacheTickers: on success the cache is replaced by the snapshot;
a transport error is caught and logged, leaving the previous cache in
place. -/
def fetchAndCacheTickers (old : List (String × Rat)) (fetch : FetchResult (List Ticker)) :
    List (String × Rat) :=
  match fetch with
  | .transportError => old
  | .ok tickers => buildTickerCache tickers

/-- convertToUsdt: USDT amounts pass through; other assets are multiplied by
the cached price of their USDT pair; a missing or falsy price converts to
zero. -/
def convertToUsdt (cache : List (String × Rat)) (asset : String) (amount : Rat) : Rat :=
  if strToUpper asset = "USDT" then amount
  else
    match cache.lookup (strToUpper asset ++ "_USDT") with
    | some price => if price = 0 then 0 else amount * price
    | none => 0

/-- One raw transaction of the Gate rebate history (times in unix seconds,
amounts through parseFloat). -/
structure Txn where
  transaction_time : Nat
  user_id : Nat
  amount_asset : String
  amount : Rat
  fee_asset : String
  fee : Rat
  source : String
deriving DecidableEq, Repr

/-- Parsed Gate response: either an object carrying a list array, or any
other shape (treated by the worker as a failed request). -/
inductive Response where
  | valid : List Txn → Response
  | invalid : Response
deriving DecidableEq, Repr

/-- The transactions the submission loop reaches sendTradeData with, in
order: sorted ascending by transaction time, restricted to raw fee strictly
positive. -/
def submittedTxns (l : List Txn) : List Txn :=
  (l.insertionSort (fun a b => a.transaction_time ≤ b.transaction_time)).filter
    (fun it => 0 < it.fee)

/-- The record built for one surviving Gate transaction (EXCHANGE_ID is 7):
volume and fee are converted to USDT against the cycle cache. -/
def txnTradeData (cache : List (String × Rat)) (it : Txn) : TradeData :=
  { exchangeUid := toString it.user_id, exchangeId := 7,
    tradeVolumeUsdt := convertToUsdt cache it.amount_asset it.amount,
    feeUsdt := convertToUsdt cache it.fee_asset it.fee,
    tradeDate := it.transaction_time / secPerDay }

/-- Outcome of one Gate cycle; the resulting ticker cache is part of the
observable state because it persists across cycles. -/
structure GateCycleResult where
  apiCalls : Nat
  posts : List Payload
  watermarkWrite : Option Nat
  cache : List (String × Rat)
deriving DecidableEq, Repr

/-- One Gate sync cycle.  The ticker snapshot request is always issued first;
the cycle ends right after it when the resulting cache is empty.  The window
start (in seconds) comes from the forced seven day lookback in test mode or
from the state service otherwise, is clamped to thirty days before now when
the gap exceeds thirty days, and a start at or beyond now ends the cycle
before the commission request.  A transport error on the commission request
aborts before the watermark update; any response shape without a list array
only logs, and in normal mode the watermark is then advanced to now (in
milliseconds) whether or not the response was usable. -/
def fetchAndProcessCommissions (testMode : Bool) (stored : Option Nat) (nowMs : Nat)
    (oldCache : List (String × Rat)) (tickerFetch : FetchResult (List Ticker))
    (commFetch : FetchResult Response) : GateCycleResult :=
  let cache := fetchAndCacheTickers oldCache tickerFetch
  if cache.length = 0 then
    { apiCalls := 1, posts := [], watermarkWrite := none, cache := cache }
  else
    let nowSec := nowMs / 1000
    let startTime0 :=
      if testMode then (nowMs - 7 * msPerDay) / 1000
      else getLastSyncTimestamp stored nowMs / 1000
    let startTime :=
      if 30 * secPerDay < nowSec - startTime0 then nowSec - 30 * secPerDay else startTime0
    if nowSec ≤ startTime then
      { apiCalls := 1, posts := [], watermarkWrite := none, cache := cache }
    else
      match commFetch with
      | .transportError =>
        { apiCalls := 2, posts := [], watermarkWrite := none, cache := cache }
      | .ok .invalid =>
        { apiCalls := 2, posts := [],
          watermarkWrite := if testMode then none else some nowMs, cache := cache }
      | .ok (.valid list) =>
        { apiCalls := 2,
          posts := (submittedTxns list).filterMap
            (fun it => sendTradeData testMode (txnTradeData cache it)),
          watermarkWrite := if testMode then none else some nowMs,
          cache := cache }

end Gate

/-!
Helper facts.
-/

instance : IsTotal Bitget.Item (fun a b => a.date ≤ b.date) :=
  ⟨fun a b => Nat.le_total a.date b.date⟩

instance : IsTrans Bitget.Item (fun a b => a.date ≤ b.date) :=
  ⟨fun _ _ _ => Nat.le_trans⟩

instance : IsTotal Xt.Entry (fun a b => a.rawTimestamp ≤ b.rawTimestamp) :=
  ⟨fun a b => Nat.le_total a.rawTimestamp b.rawTimestamp⟩

instance : IsTrans Xt.Entry (fun a b => a.rawTimestamp ≤ b.rawTimestamp) :=
  ⟨fun _ _ _ => Nat.le_trans⟩

instance : IsTotal Gate.Txn (fun a b => a.transaction_time ≤ b.transaction_time) :=
  ⟨fun a b => Nat.le_total a.transaction_time b.transaction_time⟩

instance : IsTrans Gate.Txn (fun a b => a.transaction_time ≤ b.transaction_time) :=
  ⟨fun _ _ _ => Nat.le_trans⟩

theorem updateLastSyncTimestamp_le (stored : Option Nat) (t : Nat) :
    watermarkValue stored ≤ watermarkValue (updateLastSyncTimestamp stored t) := by
  rcases stored with _ | v
  · simp [updateLastSyncTimestamp, watermarkValue]
  · simp only [updateLastSyncTimestamp, watermarkValue]
    split
    · rename_i h
      simp only [Option.getD_some]
      omega
    · simp

theorem strToUpper_usdt_eq : strToUpper "USDT" = "USDT" := by decide

theorem strEndsWith_btc_usdt : strEndsWith "BTC_USDT" "_USDT" = true := by decide

theorem resetCheckFires_iff (t : Nat) : resetCheckFires t = true ↔ t % msPerDay < 1000 := by
  simp only [resetCheckFires, jsHour, jsMinute, jsSecond, msPerDay, Bool.and_eq_true,
    beq_iff_eq]
  omega

/-!
Claim theorems.
-/

/-- Claim C5 (confirmed).  Idempotent, monotonic watermark advance: starting
from an empty slot, updateLastSyncTimestamp with t1 followed by any t2 at
most t1 leaves the stored value at t1; from any slot, the second call with
t2 at most t1 changes nothing; and the stored value never decreases under
any sequence of updates. -/
theorem C5_watermark_monotonic :
    (∀ t1 t2 : Nat, t2 ≤ t1 →
      updateLastSyncTimestamp (updateLastSyncTimestamp none t1) t2 = some t1)
    ∧ (∀ (stored : Option Nat) (t1 t2 : Nat), t2 ≤ t1 →
      updateLastSyncTimestamp (updateLastSyncTimestamp stored t1) t2
        = updateLastSyncTimestamp stored t1)
    ∧ (∀ (stored : Option Nat) (updates : List Nat),
      watermarkValue stored ≤ watermarkValue (updates.foldl updateLastSyncTimestamp stored)) := by
  have heq : ∀ (s : Option Nat) (t : Nat),
      updateLastSyncTimestamp s t
        = some (if watermarkValue s = 0 ∨ watermarkValue s < t then t else watermarkValue s) := by
    intro s t
    rcases s with _ | v
    · simp [updateLastSyncTimestamp, watermarkValue]
    · simp only [updateLastSyncTimestamp, watermarkValue, Option.getD_some]
      rw [apply_ite some]
  have hstep : ∀ (s : Option Nat) (t1 t2 : Nat), t2 ≤ t1 →
      updateLastSyncTimestamp (updateLastSyncTimestamp s t1) t2
        = updateLastSyncTimestamp s t1 := by
    intro s t1 t2 h
    rw [heq s t1, heq]
    simp only [watermarkValue, Option.getD_some]
    split_ifs <;> first | rfl | (congr 1; omega)
  refine ⟨?_, hstep, ?_⟩
  · intro t1 t2 h
    have := hstep none t1 t2 h
    simpa [updateLastSyncTimestamp] using this
  · intro stored updates
    induction updates generalizing stored with
    | nil => simp
    | cons u rest ih =>
      exact le_trans (updateLastSyncTimestamp_le stored u) (ih _)

/-- Witness for C5 at a concrete input. -/
theorem C5_watermark_monotonic_witness :
    updateLastSyncTimestamp (updateLastSyncTimestamp none 3) 2 = some 3 :=
  C5_watermark_monotonic.1 3 2 (by decide)

/-- Claim C10 (confirmed).  Guarded fee reconstruction: calculateOriginalFee
returns zero when the rebate rate is missing or zero and the quotient
otherwise; routing its division through checkedDiv shows the divisor is never
zero, so the result is always a well-defined rational. -/
theorem C10_guarded_fee_reconstruction :
    ∀ (c : Rat) (r : Option Rat),
      Xt.calculateOriginalFeeChecked c r = some (Xt.calculateOriginalFee c r)
      ∧ Xt.calculateOriginalFee c none = 0
      ∧ Xt.calculateOriginalFee c (some 0) = 0
      ∧ ∀ q : Rat, q ≠ 0 → Xt.calculateOriginalFee c (some q) = c / q := by
  intro c r
  refine ⟨?_, rfl, by simp [Xt.calculateOriginalFee], ?_⟩
  · rcases r with _ | q
    · rfl
    · simp only [Xt.calculateOriginalFeeChecked, Xt.calculateOriginalFee, Xt.checkedDiv]
      split <;> rfl
  · intro q hq
    simp [Xt.calculateOriginalFee, hq]

/-- Witness for C10 at a concrete input. -/
theorem C10_guarded_fee_reconstruction_witness :
    Xt.calculateOriginalFee 6 (some 2) = 6 / 2 :=
  (C10_guarded_fee_reconstruction 6 (some 2)).2.2.2 2 (by norm_num)

/-- Claim C9 counterexample.  Two consecutive checks 1050 milliseconds apart
(spacing drifting 50 milliseconds above one second) straddle a midnight
boundary and neither satisfies the reset condition, so the daily reset is
missed: the claimed guarantee fails for spacing above one second. -/
theorem C9_counterexample :
    86399990 < 86400000 ∧ 86400000 % msPerDay = 0
    ∧ 86400000 ≤ 86401040 ∧ 86401040 ≤ 86399990 + 1050
    ∧ resetCheckFires 86399990 = false ∧ resetCheckFires 86401040 = false := by
  decide

/-- Claim C9 as amended (corrected).  When consecutive clock checks are at
most one second apart, any sequence of checks that starts before a midnight
boundary and reaches it contains a check on which the reset condition fires;
the original claim asserted this even for spacing above one second, which the
counterexample refutes. -/
theorem C9_boundary_observed :
    ∀ (midnight t : Nat) (rest : List Nat),
      midnight % msPerDay = 0 →
      List.Chain' (fun a b => b ≤ a + 1000) (t :: rest) →
      t < midnight →
      (∃ y ∈ t :: rest, midnight ≤ y) →
      ∃ c ∈ t :: rest, resetCheckFires c = true := by
  intro midnight t rest hM
  induction rest generalizing t with
  | nil =>
    intro _ ht hy
    rcases hy with ⟨y, hy, hMy⟩
    simp only [List.mem_singleton] at hy
    omega
  | cons u rest ih =>
    intro hchain ht hy
    rcases List.chain'_cons.mp hchain with ⟨hub, hchain2⟩
    by_cases hu : midnight ≤ u
    · refine ⟨u, by simp, ?_⟩
      rw [resetCheckFires_iff]
      simp only [msPerDay] at hM ⊢
      omega
    · push_neg at hu
      have hy2 : ∃ y ∈ u :: rest, midnight ≤ y := by
        rcases hy with ⟨y, hmem, hMy⟩
        rcases List.mem_cons.mp hmem with h | h
        · omega
        · exact ⟨y, h, hMy⟩
      rcases ih u hchain2 hu hy2 with ⟨c, hc, hfire⟩
      exact ⟨c, List.mem_cons_of_mem _ hc, hfire⟩

/-- Witness for the amended C9 at a concrete input: checks 900 milliseconds
apart around a midnight boundary observe the reset condition. -/
theorem C9_boundary_observed_witness :
    ∃ c ∈ [86399500, 86400400], resetCheckFires c = true :=
  C9_boundary_observed 86400000 86399500 [86400400] (by decide)
    (List.chain'_cons.mpr ⟨by omega, List.chain'_singleton _⟩) (by omega)
    ⟨86400400, by simp, by omega⟩

/-- Claim C4 (confirmed).  Dry-run isolation: with the test mode flag set,
every cycle of every worker performs no backend POST and issues no watermark
write, whatever the stored state, the clock and the network responses. -/
theorem C4_dry_run_isolation :
    (∀ (stored : Option Nat) (now : Nat) (fetch : FetchResult Bitget.Response),
        (Bitget.fetchAndProcessCommissions true stored now fetch).posts = []
        ∧ (Bitget.fetchAndProcessCommissions true stored now fetch).watermarkWrite = none)
    ∧ (∀ (stored : Option Nat) (now : Nat) (f1 f2 : FetchResult Xt.Response),
        (Xt.fetchAndProcessCommissions true stored now f1 f2).posts = []
        ∧ (Xt.fetchAndProcessCommissions true stored now f1 f2).watermarkWrite = none)
    ∧ (∀ (stored : Option Nat) (nowMs : Nat) (oldCache : List (String × Rat))
        (tf : FetchResult (List Gate.Ticker)) (cf : FetchResult Gate.Response),
        (Gate.fetchAndProcessCommissions true stored nowMs oldCache tf cf).posts = []
        ∧ (Gate.fetchAndProcessCommissions true stored nowMs oldCache tf cf).watermarkWrite = none) := by
  refine ⟨?_, ?_, ?_⟩
  · intro stored now fetch
    rcases fetch with _ | r <;>
      simp [Bitget.fetchAndProcessCommissions, sendTradeData,
        apply_ite CycleResult.posts, apply_ite CycleResult.watermarkWrite]
  · intro stored now f1 f2
    rcases f1 with _ | r1 <;> rcases f2 with _ | r2 <;>
      simp [Xt.fetchAndProcessCommissions, sendTradeData,
        apply_ite CycleResult.posts, apply_ite CycleResult.watermarkWrite]
  · intro stored nowMs oldCache tf cf
    rcases cf with _ | (list | _) <;>
      simp [Gate.fetchAndProcessCommissions, sendTradeData,
        apply_ite Gate.GateCycleResult.posts, apply_ite Gate.GateCycleResult.watermarkWrite]

/-- Claim C3 counterexample.  A Bitget cycle whose response carries a
non-success code still calls updateLastSyncTimestamp with the cycle end, so
an API-level failure does advance the stored watermark, contrary to the
claim. -/
theorem C3_counterexample :
    ("99999" : String) ≠ "00000"
    ∧ (Bitget.fetchAndProcessCommissions false (some 1000) 2000
        (.ok { code := "99999", commissionList := [] })).watermarkWrite = some 2000 := by
  constructor
  · decide
  · simp [Bitget.fetchAndProcessCommissions, getLastSyncTimestamp]

/-- Claim C3 as amended (corrected).  A transport error in any worker aborts
the cycle without a watermark write (for Bitget, for either XT request, and
for the Gate commission request); but an API-level non-success response only
logs the failure: in normal mode the watermark is still advanced to the
cycle end, so only transport failures keep the window for retry. -/
theorem C3_failure_watermark :
    (∀ (testMode : Bool) (stored : Option Nat) (now : Nat),
        (Bitget.fetchAndProcessCommissions testMode stored now .transportError).watermarkWrite
          = none)
    ∧ (∀ (testMode : Bool) (stored : Option Nat) (now : Nat) (f2 : FetchResult Xt.Response),
        (Xt.fetchAndProcessCommissions testMode stored now .transportError f2).watermarkWrite
          = none)
    ∧ (∀ (testMode : Bool) (stored : Option Nat) (now : Nat) (r1 : Xt.Response),
        (Xt.fetchAndProcessCommissions testMode stored now (.ok r1) .transportError).watermarkWrite
          = none)
    ∧ (∀ (testMode : Bool) (stored : Option Nat) (nowMs : Nat)
        (oldCache : List (String × Rat)) (tf : FetchResult (List Gate.Ticker)),
        (Gate.fetchAndProcessCommissions testMode stored nowMs oldCache tf
          .transportError).watermarkWrite = none)
    ∧ (∀ (stored : Option Nat) (now : Nat) (r : Bitget.Response),
        getLastSyncTimestamp stored now < now → r.code ≠ "00000" →
        (Bitget.fetchAndProcessCommissions false stored now (.ok r)).watermarkWrite
          = some now) := by
  refine ⟨?_, ?_, ?_, ?_, ?_⟩
  · intro testMode stored now
    simp [Bitget.fetchAndProcessCommissions, apply_ite CycleResult.watermarkWrite]
  · intro testMode stored now f2
    simp [Xt.fetchAndProcessCommissions, apply_ite CycleResult.watermarkWrite]
  · intro testMode stored now r1
    simp [Xt.fetchAndProcessCommissions, apply_ite CycleResult.watermarkWrite]
  · intro testMode stored nowMs oldCache tf
    simp [Gate.fetchAndProcessCommissions, apply_ite Gate.GateCycleResult.watermarkWrite]
  · intro stored now r hw _
    simp [Bitget.fetchAndProcessCommissions, apply_ite CycleResult.watermarkWrite,
      if_neg (not_le.mpr hw)]

/-- Witness for the amended C3 at a concrete input. -/
theorem C3_failure_watermark_witness :
    (Bitget.fetchAndProcessCommissions false (some 1000) 2000
      (.ok { code := "9", commissionList := [] })).watermarkWrite = some 2000 :=
  C3_failure_watermark.2.2.2.2 (some 1000) 2000 { code := "9", commissionList := [] }
    (by decide) (by decide)

/-- Claim C1 counterexample.  A normal-mode Bitget cycle given the same
record twice (same uid, same date, hence one dedup key) performs two backend
submissions, not one: no dedup cache is consulted before submitting. -/
theorem C1_counterexample :
    (Bitget.fetchAndProcessCommissions false (some 500) 2000
      (.ok { code := "00000",
             commissionList := [⟨"u", 1000, 50, 2⟩, ⟨"u", 1000, 50, 2⟩] })).posts.length = 2
    ∧ (Bitget.fetchAndProcessCommissions false (some 500) 2000
      (.ok { code := "00000",
             commissionList := [⟨"u", 1000, 50, 2⟩, ⟨"u", 1000, 50, 2⟩] })).posts.length ≠ 1 := by
  have h : (Bitget.fetchAndProcessCommissions false (some 500) 2000
      (.ok { code := "00000",
             commissionList := [⟨"u", 1000, 50, 2⟩, ⟨"u", 1000, 50, 2⟩] })).posts.length = 2 := by
    norm_num [Bitget.fetchAndProcessCommissions, getLastSyncTimestamp, Bitget.submittedItems,
      Bitget.sortItems, List.insertionSort, List.orderedInsert, List.filter_cons,
      List.filterMap_cons, sendTradeData, Bitget.toTradeData, decide_eq_true_eq]
  exact ⟨h, by omega⟩

/-- Claim C1 as amended (corrected).  The sync workers do not consult the
dedup cache (the caching service module is not imported by any worker): in a
normal-mode Bitget cycle with an open window and a success response, the
number of backend submissions equals the number of raw items with positive
fee, duplicates of the same (date, uid) key included. -/
theorem C1_no_dedup :
    ∀ (stored : Option Nat) (now : Nat) (r : Bitget.Response),
      getLastSyncTimestamp stored now < now → r.code = "00000" →
      (Bitget.fetchAndProcessCommissions false stored now (.ok r)).posts.length
        = (r.commissionList.filter (fun it => 0 < it.fee)).length := by
  intro stored now r hw hc
  have hlen : ∀ l : List Bitget.Item,
      (l.filterMap (fun it => sendTradeData false (Bitget.toTradeData it))).length
        = l.length := by
    intro l
    induction l with
    | nil => rfl
    | cons a l ih => simp [sendTradeData, ih]
  simp only [Bitget.fetchAndProcessCommissions, Bool.false_eq_true, if_false,
    if_neg (not_le.mpr hw), if_pos hc]
  rw [hlen]
  simp only [Bitget.submittedItems, Bitget.sortItems]
  exact (List.Perm.filter _ (List.perm_insertionSort _ r.commissionList)).length_eq

/-- Witness for the amended C1 at a concrete input. -/
theorem C1_no_dedup_witness :
    (Bitget.fetchAndProcessCommissions false (some 500) 2000
      (.ok { code := "00000",
             commissionList := [⟨"u", 1000, 50, 2⟩, ⟨"u", 1000, 50, 2⟩] })).posts.length
      = (({ code := "00000",
            commissionList := [⟨"u", 1000, 50, 2⟩, ⟨"u", 1000, 50, 2⟩] } :
          Bitget.Response).commissionList.filter (fun it => 0 < it.fee)).length :=
  C1_no_dedup (some 500) 2000 _ (by decide) rfl

/-- Claim C2 counterexample.  An XT item whose reconstructed fee is zero
(zero rebate rate) still produces one backend submission with a zero
fee_usdt: the XT worker has no fee filter before submission. -/
theorem C2_counterexample :
    (Xt.parseItem "Spot" ⟨1500, "u", 1, 100, 5, 0, 0⟩).fee = 0
    ∧ (Xt.fetchAndProcessCommissions false (some 1000) 2000
        (.ok { rc := 0, mc := "SUCCESS", items := [⟨1500, "u", 1, 100, 5, 0, 0⟩] })
        (.ok { rc := 0, mc := "SUCCESS", items := [] })).posts
      = [{ exchange_uid := "u", exchange_id := 5, trade_volume_usdt := 100,
           fee_usdt := 0, trade_date := 0 }] := by
  constructor
  · simp [Xt.parseItem, Xt.calculateOriginalFee]
  · norm_num [Xt.fetchAndProcessCommissions, getLastSyncTimestamp, Xt.submittedEntries,
      Xt.batchOk, Xt.parseItem, Xt.calculateOriginalFee, List.insertionSort,
      List.orderedInsert, List.filterMap_cons, sendTradeData, Xt.toTradeData, mkPayload,
      dayOfMs, msPerDay]

/-- Claim C2 as amended (corrected).  The fee filter holds in the Bitget and
Gate workers — every backend post of a Bitget cycle has positive fee_usdt,
and every transaction reaching the Gate submission loop has positive raw
fee — but the XT worker submits every parsed entry regardless of its
reconstructed fee, as the counterexample shows. -/
theorem C2_fee_filter :
    (∀ (testMode : Bool) (stored : Option Nat) (now : Nat)
        (fetch : FetchResult Bitget.Response),
        ∀ p ∈ (Bitget.fetchAndProcessCommissions testMode stored now fetch).posts,
          0 < p.fee_usdt)
    ∧ (∀ l : List Gate.Txn, ∀ it ∈ Gate.submittedTxns l, 0 < it.fee) := by
  constructor
  · intro testMode stored now fetch p hp
    rcases fetch with _ | r
    · simp [Bitget.fetchAndProcessCommissions, apply_ite CycleResult.posts] at hp
    · simp only [Bitget.fetchAndProcessCommissions, apply_ite CycleResult.posts] at hp
      rw [List.mem_ite_nil_left] at hp
      rcases hp with ⟨-, hp⟩
      rw [List.mem_ite_nil_right] at hp
      rcases hp with ⟨-, hp⟩
      obtain ⟨it, hit, hsend⟩ := List.mem_filterMap.mp hp
      have hfee : 0 < it.fee := by
        have := (List.mem_filter.mp hit).2
        exact of_decide_eq_true this
      rcases testMode with _ | _
      · simp only [sendTradeData, Bool.false_eq_true, if_false, Option.some.injEq] at hsend
        subst hsend
        simpa [mkPayload, Bitget.toTradeData] using hfee
      · simp [sendTradeData] at hsend
  · intro l it hit
    have := (List.mem_filter.mp hit).2
    exact of_decide_eq_true this

/-- Witness for the amended C2 at a concrete input. -/
theorem C2_fee_filter_witness :
    0 < ({ transaction_time := 5, user_id := 7, amount_asset := "USDT", amount := 3,
           fee_asset := "USDT", fee := 2, source := "spot" } : Gate.Txn).fee :=
  C2_fee_filter.2
    [{ transaction_time := 5, user_id := 7, amount_asset := "USDT", amount := 3,
       fee_asset := "USDT", fee := 2, source := "spot" }] _
    (by norm_num [Gate.submittedTxns, List.insertionSort, List.orderedInsert,
      List.filter_cons, decide_eq_true_eq])

/-- Claim C6 counterexample.  A Gate cycle whose ticker snapshot fetch fails
with a transport error keeps the previous cycle's cache; when that stale
cache is non-empty the cycle does not abort: it fetches the commission
history (two API calls) and submits a record using the stale price table. -/
theorem C6_counterexample :
    Gate.fetchAndCacheTickers [("BTC_USDT", (1 : Rat))] .transportError
      = [("BTC_USDT", (1 : Rat))]
    ∧ (Gate.fetchAndProcessCommissions false (some 1500000) 2000000
        [("BTC_USDT", (1 : Rat))] .transportError
        (.ok (.valid [⟨1700, 42, "USDT", 100, "USDT", 1, "spot"⟩]))).apiCalls = 2
    ∧ (Gate.fetchAndProcessCommissions false (some 1500000) 2000000
        [("BTC_USDT", (1 : Rat))] .transportError
        (.ok (.valid [⟨1700, 42, "USDT", 100, "USDT", 1, "spot"⟩]))).posts.length = 1 := by
  refine ⟨rfl, ?_, ?_⟩ <;>
    norm_num [Gate.fetchAndProcessCommissions, Gate.fetchAndCacheTickers,
      getLastSyncTimestamp, Gate.secPerDay, Gate.submittedTxns, List.insertionSort,
      List.orderedInsert, List.filter_cons, List.filterMap_cons, sendTradeData,
      Gate.txnTradeData, Gate.convertToUsdt, strToUpper_usdt_eq, mkPayload, msPerDay,
      decide_eq_true_eq]

/-- Claim C6 as amended (corrected).  The Gate cycle aborts right after the
ticker call exactly when the resulting cache is empty (first-ever failure or
an empty snapshot); a failed refresh keeps the previous cache, so with a
non-empty stale cache the cycle proceeds and converts against stale prices,
as the counterexample shows. -/
theorem C6_snapshot_gate :
    (∀ (testMode : Bool) (stored : Option Nat) (nowMs : Nat)
        (oldCache : List (String × Rat)) (tf : FetchResult (List Gate.Ticker))
        (cf : FetchResult Gate.Response),
        Gate.fetchAndCacheTickers oldCache tf = [] →
        Gate.fetchAndProcessCommissions testMode stored nowMs oldCache tf cf
          = { apiCalls := 1, posts := [], watermarkWrite := none, cache := [] })
    ∧ (∀ oldCache : List (String × Rat),
        Gate.fetchAndCacheTickers oldCache .transportError = oldCache) := by
  refine ⟨?_, fun _ => rfl⟩
  intro testMode stored nowMs oldCache tf cf h
  simp [Gate.fetchAndProcessCommissions, h]

/-- Witness for the amended C6 at a concrete input. -/
theorem C6_snapshot_gate_witness :
    Gate.fetchAndProcessCommissions false none 0 [] (.ok []) .transportError
      = { apiCalls := 1, posts := [], watermarkWrite := none, cache := [] } :=
  C6_snapshot_gate.1 false none 0 [] (.ok []) .transportError rfl

/-- Claim C7 counterexample.  A Gate cycle whose watermark is at or beyond
the current time still performs one outbound API call — the ticker snapshot
request is issued before the window check — so the no-op window property
fails for the Gate worker (it holds only for the commission request and the
submissions). -/
theorem C7_counterexample :
    2000000 ≤ getLastSyncTimestamp (some 4000000) 2000000
    ∧ (Gate.fetchAndProcessCommissions false (some 4000000) 2000000 []
        (.ok [⟨"BTC_USDT", 5⟩])
        (.ok (.valid [⟨100, 1, "USDT", 1, "USDT", 1, "s"⟩]))).apiCalls = 1
    ∧ (Gate.fetchAndProcessCommissions false (some 4000000) 2000000 []
        (.ok [⟨"BTC_USDT", 5⟩])
        (.ok (.valid [⟨100, 1, "USDT", 1, "USDT", 1, "s"⟩]))).apiCalls ≠ 0
    ∧ (Gate.fetchAndProcessCommissions false (some 4000000) 2000000 []
        (.ok [⟨"BTC_USDT", 5⟩])
        (.ok (.valid [⟨100, 1, "USDT", 1, "USDT", 1, "s"⟩]))).posts = [] := by
  refine ⟨by decide, ?_, ?_, ?_⟩ <;>
    norm_num [Gate.fetchAndProcessCommissions, Gate.fetchAndCacheTickers,
      Gate.buildTickerCache, Gate.upsert, strEndsWith_btc_usdt, getLastSyncTimestamp,
      Gate.secPerDay]

/-- Claim C7 as amended (corrected).  With the watermark at or beyond now, a
normal-mode Bitget or XT cycle performs zero API calls and zero submissions;
a Gate cycle performs zero submissions and no commission request, but always
issues its one ticker snapshot call first, as the counterexample shows. -/
theorem C7_noop_window :
    (∀ (stored : Option Nat) (now : Nat) (fetch : FetchResult Bitget.Response),
        now ≤ getLastSyncTimestamp stored now →
        Bitget.fetchAndProcessCommissions false stored now fetch
          = { apiCalls := 0, posts := [], watermarkWrite := none })
    ∧ (∀ (stored : Option Nat) (now : Nat) (f1 f2 : FetchResult Xt.Response),
        now ≤ getLastSyncTimestamp stored now →
        Xt.fetchAndProcessCommissions false stored now f1 f2
          = { apiCalls := 0, posts := [], watermarkWrite := none })
    ∧ (∀ (stored : Option Nat) (nowMs : Nat) (oldCache : List (String × Rat))
        (tf : FetchResult (List Gate.Ticker)) (cf : FetchResult Gate.Response),
        nowMs ≤ getLastSyncTimestamp stored nowMs →
        Gate.fetchAndProcessCommissions false stored nowMs oldCache tf cf
          = { apiCalls := 1, posts := [], watermarkWrite := none,
              cache := Gate.fetchAndCacheTickers oldCache tf }) := by
  refine ⟨?_, ?_, ?_⟩
  · intro stored now fetch h
    simp [Bitget.fetchAndProcessCommissions, h]
  · intro stored now f1 f2 h
    simp [Xt.fetchAndProcessCommissions, h]
  · intro stored nowMs oldCache tf cf h
    have h2 : nowMs / 1000 ≤ getLastSyncTimestamp stored nowMs / 1000 :=
      Nat.div_le_div_right h
    have hz : nowMs / 1000 - getLastSyncTimestamp stored nowMs / 1000 = 0 :=
      Nat.sub_eq_zero_of_le h2
    by_cases hc : (Gate.fetchAndCacheTickers oldCache tf).length = 0
    · simp [Gate.fetchAndProcessCommissions, hc, List.length_eq_zero.mp hc]
    · simp [Gate.fetchAndProcessCommissions, hc, hz, h2]

/-- Witness for the amended C7 at a concrete input. -/
theorem C7_noop_window_witness :
    Bitget.fetchAndProcessCommissions false (some 5000) 4000 .transportError
      = { apiCalls := 0, posts := [], watermarkWrite := none } :=
  C7_noop_window.1 (some 5000) 4000 .transportError (by decide)

/-- Claim C8 counterexample.  Two Bitget records with the same source
timestamp are both submitted, so the submitted sequence of source timestamps
is not strictly ascending (it contains a repeated value); strictness fails
although the order is non-decreasing. -/
theorem C8_counterexample :
    ((Bitget.submittedItems
        { code := "00000",
          commissionList := [⟨"a", 1000, 1, 1⟩, ⟨"b", 1000, 1, 1⟩] }).map Bitget.Item.date
      = [1000, 1000])
    ∧ ¬ List.Pairwise (fun a b => a < b)
        ((Bitget.submittedItems
          { code := "00000",
            commissionList := [⟨"a", 1000, 1, 1⟩, ⟨"b", 1000, 1, 1⟩] }).map Bitget.Item.date)
    ∧ (Bitget.fetchAndProcessCommissions false (some 500) 2000
        (.ok { code := "00000",
               commissionList := [⟨"a", 1000, 1, 1⟩, ⟨"b", 1000, 1, 1⟩] })).posts.length
      = 2 := by
  have h1 : (Bitget.submittedItems
      { code := "00000",
        commissionList := [⟨"a", 1000, 1, 1⟩, ⟨"b", 1000, 1, 1⟩] }).map Bitget.Item.date
      = [1000, 1000] := by
    norm_num [Bitget.submittedItems, Bitget.sortItems, List.insertionSort,
      List.orderedInsert, List.filter_cons, decide_eq_true_eq]
  refine ⟨h1, ?_, ?_⟩
  · rw [h1]
    decide
  · norm_num [Bitget.fetchAndProcessCommissions, getLastSyncTimestamp,
      Bitget.submittedItems, Bitget.sortItems, List.insertionSort, List.orderedInsert,
      List.filter_cons, List.filterMap_cons, sendTradeData, Bitget.toTradeData,
      decide_eq_true_eq]

/-- Claim C8 as amended (corrected).  Within one cycle the surviving records
are submitted in non-decreasing (ascending, ties allowed) order of source
timestamp in every worker, and the example input with timestamps 5, 1, 3 is
submitted as 1, 3, 5; strict ascent fails for repeated timestamps, as the
counterexample shows. -/
theorem C8_submission_order :
    (∀ r : Bitget.Response,
        List.Sorted (fun a b => a ≤ b) ((Bitget.submittedItems r).map Bitget.Item.date))
    ∧ (∀ r1 r2 : Xt.Response,
        List.Sorted (fun a b => a ≤ b)
          ((Xt.submittedEntries r1 r2).map Xt.Entry.rawTimestamp))
    ∧ (∀ l : List Gate.Txn,
        List.Sorted (fun a b => a ≤ b)
          ((Gate.submittedTxns l).map Gate.Txn.transaction_time))
    ∧ ((Bitget.submittedItems
        { code := "00000",
          commissionList := [⟨"a", 5, 1, 1⟩, ⟨"b", 1, 1, 1⟩, ⟨"c", 3, 1, 1⟩] }).map
        Bitget.Item.date = [1, 3, 5]) := by
  refine ⟨?_, ?_, ?_, ?_⟩
  · intro r
    exact List.pairwise_map.mpr
      (List.Pairwise.sublist (List.filter_sublist _)
        (List.sorted_insertionSort (fun a b : Bitget.Item => a.date ≤ b.date)
          r.commissionList))
  · intro r1 r2
    exact List.pairwise_map.mpr
      (List.sorted_insertionSort (fun a b : Xt.Entry => a.rawTimestamp ≤ b.rawTimestamp)
        ((if Xt.batchOk r1 then r1.items.map (Xt.parseItem "Spot") else [])
          ++ (if Xt.batchOk r2 then r2.items.map (Xt.parseItem "Futures") else [])))
  · intro l
    exact List.pairwise_map.mpr
      (List.Pairwise.sublist (List.filter_sublist _)
        (List.sorted_insertionSort
          (fun a b : Gate.Txn => a.transaction_time ≤ b.transaction_time) l))
  · norm_num [Bitget.submittedItems, Bitget.sortItems, List.insertionSort,
      List.orderedInsert, List.filter_cons, decide_eq_true_eq]
